import Mathlib

/-!
Verification of the activity-stream aggregator
(`deep-tree-echo-ml/activity_stream.py`).

The program is a terminal dashboard that aggregates per-component JSON
activity logs.  This file shallowly embeds the pure core of that program:

* JSON values (`Json`) with the structural equality that Python applies to
  parsed JSON values whose object keys appear in a fixed order (the order
  written by the producers and preserved by `json.load`).
* Python dict primitives used by the code: keyed lookup (`d[k]`, `k in d`)
  and keyed assignment (`d[k] = v`), on association lists with unique keys.
* The Collector step `update_activities` (lines 88-111), one component at a
  time: the loop body applied to a single `(activity_type, path)` pair.
* The display loader of `update_display` (lines 162-172) that re-reads a
  single component file and stamps each record with the component tag.
* The timeline merge (`activities.sort(key=lambda x: x.get("time", 0))`,
  line 175).  Python `list.sort` is documented as a stable sort by key; a
  stable sort is extensionally unique, so the stable insertion sort below
  is an exact model of its input/output behaviour.
* Tail mode (`main`, lines 323-360): the per-component delta computation
  and cursor (`last_seen`) update.
* Store initialisation (lines 36-45 and 315-321).
* The redraw change detector `_screen_state_changed` (lines 78-86),
  including the aliasing of `last_screen_state["activities"]` with the
  live `self.activities` dict.
* The heartbeat branch of `update_display` (lines 194-200) composed with
  the scheduler `run` (lines 248-268).

Machine floats only occur as timestamps and CPU percentages; none of the
verified claims depends on rounding, so timestamps are modelled as `Int`
(milliseconds where sub-second constants occur) and percentages as `ℚ`.
-/

/-- A JSON value as produced by `json.load`.  Numbers are modelled as
integers (the timestamps and counts the program compares; no claim depends
on float rounding).  Objects are association lists in document order with
unique keys, which is how Python dicts behave for parsed JSON. -/
inductive Json where
  | null
  | bool (b : Bool)
  | num (n : Int)
  | str (s : String)
  | arr (xs : List Json)
  | obj (fields : List (String × Json))

mutual

def Json.deq : (a b : Json) → Decidable (a = b)
  | .null, .null => isTrue rfl
  | .bool a, .bool b =>
      if h : a = b then isTrue (by rw [h]) else isFalse (fun he => h (Json.bool.inj he))
  | .num a, .num b =>
      if h : a = b then isTrue (by rw [h]) else isFalse (fun he => h (Json.num.inj he))
  | .str a, .str b =>
      if h : a = b then isTrue (by rw [h]) else isFalse (fun he => h (Json.str.inj he))
  | .arr a, .arr b =>
      match Json.deqList a b with
      | isTrue h => isTrue (by rw [h])
      | isFalse h => isFalse (fun he => h (Json.arr.inj he))
  | .obj a, .obj b =>
      match Json.deqFields a b with
      | isTrue h => isTrue (by rw [h])
      | isFalse h => isFalse (fun he => h (Json.obj.inj he))
  | .null, .bool _ => isFalse (by intro h; cases h)
  | .null, .num _ => isFalse (by intro h; cases h)
  | .null, .str _ => isFalse (by intro h; cases h)
  | .null, .arr _ => isFalse (by intro h; cases h)
  | .null, .obj _ => isFalse (by intro h; cases h)
  | .bool _, .null => isFalse (by intro h; cases h)
  | .bool _, .num _ => isFalse (by intro h; cases h)
  | .bool _, .str _ => isFalse (by intro h; cases h)
  | .bool _, .arr _ => isFalse (by intro h; cases h)
  | .bool _, .obj _ => isFalse (by intro h; cases h)
  | .num _, .null => isFalse (by intro h; cases h)
  | .num _, .bool _ => isFalse (by intro h; cases h)
  | .num _, .str _ => isFalse (by intro h; cases h)
  | .num _, .arr _ => isFalse (by intro h; cases h)
  | .num _, .obj _ => isFalse (by intro h; cases h)
  | .str _, .null => isFalse (by intro h; cases h)
  | .str _, .bool _ => isFalse (by intro h; cases h)
  | .str _, .num _ => isFalse (by intro h; cases h)
  | .str _, .arr _ => isFalse (by intro h; cases h)
  | .str _, .obj _ => isFalse (by intro h; cases h)
  | .arr _, .null => isFalse (by intro h; cases h)
  | .arr _, .bool _ => isFalse (by intro h; cases h)
  | .arr _, .num _ => isFalse (by intro h; cases h)
  | .arr _, .str _ => isFalse (by intro h; cases h)
  | .arr _, .obj _ => isFalse (by intro h; cases h)
  | .obj _, .null => isFalse (by intro h; cases h)
  | .obj _, .bool _ => isFalse (by intro h; cases h)
  | .obj _, .num _ => isFalse (by intro h; cases h)
  | .obj _, .str _ => isFalse (by intro h; cases h)
  | .obj _, .arr _ => isFalse (by intro h; cases h)

def Json.deqList : (a b : List Json) → Decidable (a = b)
  | [], [] => isTrue rfl
  | [], _ :: _ => isFalse (by intro h; cases h)
  | _ :: _, [] => isFalse (by intro h; cases h)
  | x :: xs, y :: ys =>
      match Json.deq x y with
      | isTrue h1 =>
          match Json.deqList xs ys with
          | isTrue h2 => isTrue (by rw [h1, h2])
          | isFalse h2 => isFalse (fun he => h2 (List.cons.inj he).2)
      | isFalse h1 => isFalse (fun he => h1 (List.cons.inj he).1)

def Json.deqFields : (a b : List (String × Json)) → Decidable (a = b)
  | [], [] => isTrue rfl
  | [], _ :: _ => isFalse (by intro h; cases h)
  | _ :: _, [] => isFalse (by intro h; cases h)
  | (k, v) :: xs, (k', v') :: ys =>
      if hk : k = k' then
        match Json.deq v v' with
        | isTrue hv =>
            match Json.deqFields xs ys with
            | isTrue h2 => isTrue (by rw [hk, hv, h2])
            | isFalse h2 => isFalse (fun he => h2 (List.cons.inj he).2)
        | isFalse hv => isFalse (fun he => hv (congrArg Prod.snd (List.cons.inj he).1))
      else isFalse (fun he => hk (congrArg Prod.fst (List.cons.inj he).1))

end

instance : DecidableEq Json := Json.deq

/-- Python dict lookup `fields[key]` / membership `key in fields` on an
association list: the first binding of the key (keys are unique in a
Python dict, so at most one binding exists). -/
def lookupField : List (String × Json) → String → Option Json
  | [], _ => none
  | (k, v) :: fs, key => if k = key then some v else lookupField fs key

/-- Python dict assignment `fields[key] = v`: replaces the value in place
when the key is present (keeping its position), appends otherwise. -/
def setField : List (String × Json) → String → Json → List (String × Json)
  | [], key, v => [(key, v)]
  | (k, w) :: fs, key, v =>
      if k = key then (key, v) :: fs else (k, w) :: setField fs key v

/-- Python dict lookup lifted to a `Json` value: `r[key]` when `r` is an
object, nothing otherwise. -/
def Json.getField : Json → String → Option Json
  | .obj fs, key => lookupField fs key
  | _, _ => none

/-- Python negative-index slice `xs[-n:]`: the last `n` elements, or the
whole list when it is shorter than `n` (truncated `Nat` subtraction gives
`drop 0` in that case, exactly the Python behaviour). -/
def pyTail (n : Nat) (xs : List α) : List α :=
  xs.drop (xs.length - n)

/-- Python `v[-n:]` applied to an arbitrary JSON value, as in
`data["history"][-self.max_items:]` (line 100): lists and strings are
sliceable; any other value raises `TypeError`, modelled as `none` (the
exception is caught by the handler at lines 104-105). -/
def pySliceTail (n : Nat) : Json → Option Json
  | .arr xs => some (.arr (pyTail n xs))
  | .str s => some (.str (String.mk (pyTail n s.data)))
  | _ => none

/-- Python `len(v)` on the values a component cache can hold (lists,
strings via the history-string corner, objects).  `len` of a scalar
raises in Python; the caches never hold scalars, and the default 0 keeps
the function total. -/
def jsonLen : Json → Nat
  | .arr xs => xs.length
  | .str s => s.length
  | .obj fs => fs.length
  | _ => 0

/-- Value of `self.max_items` (line 72). -/
def max_items : Nat := 100

/-- Result of opening and parsing one component log file:
the file is absent (`path.exists()` false, line 92), or present but not
valid JSON (`json.load` raises, caught at lines 104-105), or parsed. -/
inductive FileRead where
  | missing
  | malformed
  | ok (payload : Json)

/-- Per-component initial cache: line 71,
`self.activities = \x7bk: [] for k in self.paths.keys()\x7d`. -/
def initial_cache : Json := .arr []

/-- One iteration of the `update_activities` loop (lines 91-105) for a
single component: given the current cached value and the outcome of
reading the file, the new cached value.
Lines 96-97: a JSON array is clipped to its last `max_items` entries.
Lines 98-100: an object with a "history" key has that value sliced the
same way (a `TypeError` from slicing an unsliceable value is caught by
the inner handler, leaving the cache unchanged).
Lines 101-102: any other object becomes a one-element list.
A payload that is neither list nor dict matches no branch and leaves the
cache unchanged, as do a missing file and a parse failure. -/
def update_activities_step (cache : Json) (r : FileRead) : Json :=
  match r with
  | .missing => cache
  | .malformed => cache
  | .ok payload =>
    match payload with
    | .arr xs => .arr (pyTail max_items xs)
    | .obj fs =>
      match lookupField fs "history" with
      | some h =>
        match pySliceTail max_items h with
        | some h' => h'
        | none => cache
      | none => .arr [.obj fs]
    | _ => cache

/-- Elements of a JSON array (used to state membership in a cache). -/
def jsonItems : Json → List Json
  | .arr xs => xs
  | _ => []

example : update_activities_step initial_cache (.ok (.arr [.num 1, .num 2]))
    = .arr [.num 1, .num 2] := by decide

example : update_activities_step initial_cache
    (.ok (.obj [("history", .arr [.num 7])])) = .arr [.num 7] := by decide

example : update_activities_step initial_cache
    (.ok (.obj [("time", .num 7)])) = .arr [.obj [("time", .num 7)]] := by decide

/-- Line 170 (and 158): `activity["component"] = self.stream_type.value`.
Assigning into a non-dict raises `TypeError`, modelled as `none`; the
inner handler at lines 171-172 catches only `json.JSONDecodeError`, so
that exception aborts the whole display update. -/
def stampComponent (tag : String) : Json → Option Json
  | .obj fs => some (.obj (setField fs "component" (.str tag)))
  | _ => none

/-- Lines 169-170: the loop `for activity in activities` stamping each
record in order; the first non-dict element aborts with `TypeError`
(`none`). -/
def stampAll (tag : String) : List Json → Option (List Json)
  | [] => some []
  | r :: rs =>
    match stampComponent tag r, stampAll tag rs with
    | some r', some rs' => some (r' :: rs')
    | _, _ => none

/-- Single-component branch of `update_display` (lines 164-172): re-read
the component file and stamp every record with the queried tag.  A
payload that is not a JSON array either raises while iterating or breaks
the later `activities.sort` call (line 175); both escape to the outer
handler at line 238, so no record list is produced (`none`). -/
def display_load_single (tag : String) : Json → Option (List Json)
  | .arr xs => stampAll tag xs
  | _ => none

/-- Key function of the sort at line 175: `x.get("time", 0)`.  A missing
"time" key defaults to 0.  The embedding is faithful on records (JSON
objects whose "time" value, if any, is a number); on other values Python
would raise inside `sort`, and `goodRec` below marks the faithful
domain. -/
def getTime (r : Json) : Int :=
  match r with
  | .obj fs =>
    match lookupField fs "time" with
    | some (.num n) => n
    | some _ => 0
    | none => 0
  | _ => 0

/-- Records on which the line-175 sort key is faithfully modelled: a JSON
object whose "time" value, when present, is a number. -/
def goodRec : Json → Bool
  | .obj fs =>
    match lookupField fs "time" with
    | some (.num _) => true
    | some _ => false
    | none => true
  | _ => false

/-- Stable insertion of a record into an already sorted run of records
that occurred later in the input: the record passes over every record
with a strictly smaller time and lands before the first record whose
time is greater or equal, so equal-time records keep input order. -/
def insertByTime (x : Json) : List Json → List Json
  | [] => [x]
  | y :: ys =>
    if getTime y < getTime x then y :: insertByTime x ys else x :: y :: ys

/-- Model of `activities.sort(key=lambda x: x.get("time", 0))` (line
175).  Python `list.sort` is documented as a stable sort by key, and a
stable sort is extensionally unique (sorted output + equal keys in input
order determines the result), so this stable insertion sort computes
exactly the list Python produces. -/
def sortByTime : List Json → List Json
  | [] => []
  | x :: xs => insertByTime x (sortByTime xs)

/-- The Timeline Merger: lines 149-159 concatenate the per-component
batches (`activities.extend(...)`) and line 175 sorts the concatenation
by time.  Stamping is applied before extending and does not touch the
"time" key, so the merge itself is concatenation followed by the stable
sort. -/
def merge (componentLists : List (List Json)) : List Json :=
  sortByTime componentLists.flatten

example : merge [[Json.obj [("time", .num 3)]], [Json.obj [("time", .num 1)]]]
    = [Json.obj [("time", .num 1)], Json.obj [("time", .num 3)]] := by decide

example : sortByTime [Json.obj [("time", .num 1), ("d", .str "b")],
      Json.obj [("time", .num 1), ("d", .str "a")]]
    = [Json.obj [("time", .num 1), ("d", .str "b")],
       Json.obj [("time", .num 1), ("d", .str "a")]] := by decide

/-- Tail mode, lines 336 and 350: given the list stored in
`last_seen[activity_type]` and the freshly parsed list, the printed delta
`activities[len(last_seen[activity_type]):]` and the new stored list. -/
def tail_delta (last_seen activities : List Json) : List Json × List Json :=
  (activities.drop last_seen.length, activities)

/-- One tail-mode poll of one component (lines 330-354): only a payload
that `isinstance(activities, list)` accepts (line 335) prints its delta
and replaces `last_seen`; a missing file, a parse failure (line 351) or
any non-list payload prints no records and leaves `last_seen` unchanged.
First component of the result: the records printed; second: the new
`last_seen` list (whose length is the read cursor). -/
def tail_step (last_seen : List Json) (r : FileRead) : List Json × List Json :=
  match r with
  | .ok (.arr xs) => tail_delta last_seen xs
  | _ => ([], last_seen)

/-- The `last_seen` list of one component after a sequence of polls,
starting from the initial `last_seen[k] = []` of line 323. -/
def tail_run (trace : List FileRead) : List Json :=
  trace.foldl (fun last r => (tail_step last r).2) []

/-- Number of records observed in one poll: the length of the parsed
array, 0 when the payload is skipped. -/
def records_observed : FileRead → Nat
  | .ok (.arr xs) => xs.length
  | _ => 0

/-- Total number of records ever observed for a component over a
sequence of polls. -/
def total_observed (trace : List FileRead) : Nat :=
  (trace.map records_observed).sum

/-- The seven known components (lines 37 and 305-313). -/
def component_names : List String :=
  ["cognitive", "sensory", "ml", "browser", "terminal", "personality", "emergency"]

/-- Activity Store initialisation (lines 36-45, repeated at 315-321): for
each of the seven components, if `activity.json` is absent create it with
content `[]` (`json.dump([], f)` writes the two characters `[]`); an
existing file is left untouched, and paths outside the seven component
files are untouched.  The file system is modelled as a map from component
name to optional file content; `mkdir(..., exist_ok=True)` is idempotent
and carries no content, so directories are not modelled. -/
def init_store (fs : String → Option String) : String → Option String :=
  fun c =>
    if c ∈ component_names then
      match fs c with
      | none => some "[]"
      | some content => some content
    else fs c

/-- The metrics sample built by `update_system_stats` (lines 116-121).
Percentages are rationals (float rounding plays no role in the verified
claims); the capture timestamp is the `isoformat()` string. -/
structure SystemStats where
  cpu : ℚ
  memory : ℚ
  disk : ℚ
  time : String
  deriving DecidableEq

/-- Contents of the `self.activities` dict (line 71): one cached record
list per component.  The dict object is created once and only ever
mutated in place (`self.activities[activity_type] = ...`), never rebound;
this structure is the contents of that single heap object. -/
structure Activities where
  cognitive : List Json
  sensory : List Json
  ml : List Json
  browser : List Json
  terminal : List Json
  personality : List Json
  emergency : List Json
  deriving DecidableEq

/-- What `self.last_screen_state` actually retains after a call to
`_screen_state_changed` (line 85).  The stored dict holds two references:
its "activities" entry references the live `self.activities` dict — which
is mutated in place and never rebound, so dereferencing it at the next
comparison yields the then-current activities, not a snapshot — and its
"stats" entry references the dict object `self.system_stats` was bound to
at capture time, which `update_system_stats` later replaces by rebinding
(line 116) and never mutates, so that reference does retain the old
value. -/
structure ScreenSnapshot where
  statsVal : SystemStats
  deriving DecidableEq

/-- Dereference the stored snapshot at comparison time: the "activities"
entry yields the live dict contents, the "stats" entry the retained
metrics value. -/
def snapshotDeref (live : Activities) (snap : ScreenSnapshot) :
    Activities × SystemStats :=
  (live, snap.statsVal)

/-- The change detector `_screen_state_changed` (lines 78-86): build
`current_state` from the live activities and stats, compare it with
`last_screen_state` using Python structural inequality, store the new
state, return the comparison.  `none` models the initial
`self.last_screen_state = \x7b\x7d` (line 76), which is unequal to any
two-key state, so the first call returns true. -/
def screen_state_changed (live : Activities) (stats : SystemStats) :
    Option ScreenSnapshot → Bool × ScreenSnapshot
  | none => (true, ⟨stats⟩)
  | some snap => (decide ((live, stats) ≠ snapshotDeref live snap), ⟨stats⟩)

/-- Outcome of the record/heartbeat section of `update_display` (lines
194-235): whether the "System active - no events" line was printed, the
records rendered (line 203: the last 50, most recent first; the further
vertical-space cut at lines 204 and 227-234 only shortens this), and the
value of `self.last_update` afterwards (line 200 resets it when the
heartbeat fires). -/
structure DisplayOut where
  heartbeat : Bool
  rows : List Json
  last_update : Int
  deriving DecidableEq

/-- Times are integer milliseconds: the source constants 0.5 s (line 30)
and 30 s (line 196) appear as 500 and 30000. -/
def update_interval_ms : Int := 500

/-- The 30-second heartbeat window of line 196, in milliseconds. -/
def heartbeat_window_ms : Int := 30000

/-- Lines 194-235 of `update_display`: with no records, print the
heartbeat line only if more than 30 s passed since `self.last_update`
(and then reset `self.last_update`); with records, render the last 50
most recent first.  `now` is the value of `time.time()` at line 196. -/
def update_display_events (activities : List Json) (now lastUpdate : Int) :
    DisplayOut :=
  if activities.isEmpty then
    if now - lastUpdate > heartbeat_window_ms then ⟨true, [], now⟩
    else ⟨false, [], lastUpdate⟩
  else ⟨false, (pyTail 50 activities).reverse, lastUpdate⟩

/-- One data-refresh pass of the scheduler `run` (lines 250-265) as it
affects the heartbeat: at time `tNow` (line 250), if the 500 ms throttle
admits the cycle then `self.last_update` is set to `tNow` (line 257)
BEFORE `update_display` runs, and `update_display` then reads
`time.time()` as some `tDisp ≥ tNow` (line 196).  When the throttle
rejects the cycle no display update happens (`none`); the change-detector
gate (line 260) can only suppress further display updates, so this model
over-approximates the cycles in which `update_display` runs. -/
def run_cycle_display (lastUpdate tNow tDisp : Int) (activities : List Json) :
    Option DisplayOut :=
  if tNow - lastUpdate ≥ update_interval_ms then
    some (update_display_events activities tDisp tNow)
  else none

/-- Whether `isinstance(activities, list)` (line 335) accepts a payload. -/
def Json.isArr : Json → Bool
  | .arr _ => true
  | _ => false

/-! Concrete values used by counterexamples and witnesses. -/

/-- A record whose producer wrote its own "component" value. -/
def producer_rec : Json := .obj [("time", .num 5), ("component", .str "producer")]

/-- Sample records with increasing timestamps. -/
def recA : Json := .obj [("time", .num 1), ("description", .str "a")]

def recB : Json := .obj [("time", .num 2), ("description", .str "b")]

def recC : Json := .obj [("time", .num 3), ("description", .str "c")]

def recT1 : Json := .obj [("time", .num 1000), ("description", .str "trial 1")]

def recT2 : Json := .obj [("time", .num 2000), ("description", .str "trial 2")]

/-- A record with no "time" key (sorts as 0). -/
def recNoTime : Json := .obj [("description", .str "boot")]

/-- A single record that happens to contain a "history" key. -/
def bare_history_rec : Json := .obj [("history", .arr [])]

/-- Empty activities mapping (the line-71 initial state). -/
def acts_empty : Activities := ⟨[], [], [], [], [], [], []⟩

/-- Activities mapping after one cognitive record arrived. -/
def acts_one : Activities := ⟨[recA], [], [], [], [], [], []⟩

/-- A metrics sample. -/
def stats_sample : SystemStats := ⟨12, 34, 56, "2026-10-12T00:00:00"⟩

/-- A file-system state where only the ml component file exists. -/
def fs_example : String → Option String :=
  fun c => if c = "ml" then some "[1, 2]" else none

/-! Helper lemmas. -/

theorem lookupField_setField (fs : List (String × Json)) (key : String) (v : Json) :
    lookupField (setField fs key v) key = some v := by
  induction fs with
  | nil => simp [setField, lookupField]
  | cons hd tl ih =>
    obtain ⟨k, w⟩ := hd
    by_cases h : k = key
    · simp [setField, h, lookupField]
    · simp [setField, h, lookupField, ih]

theorem stampComponent_getField (tag : String) (r r' : Json)
    (h : stampComponent tag r = some r') :
    r'.getField "component" = some (.str tag) := by
  cases r <;> simp [stampComponent] at h
  subst h
  simp [Json.getField, lookupField_setField]

theorem stampAll_getField (tag : String) :
    ∀ (xs out : List Json), stampAll tag xs = some out →
      ∀ a ∈ out, a.getField "component" = some (.str tag) := by
  intro xs
  induction xs with
  | nil =>
    intro out h a ha
    simp [stampAll] at h
    subst h
    simp at ha
  | cons r rs ih =>
    intro out h a ha
    simp only [stampAll] at h
    cases hr : stampComponent tag r with
    | none => rw [hr] at h; simp at h
    | some r' =>
      cases hrs : stampAll tag rs with
      | none => rw [hr, hrs] at h; simp at h
      | some rs' =>
        rw [hr, hrs] at h
        simp only [Option.some.injEq] at h
        subst h
        rcases List.mem_cons.mp ha with rfl | ha'
        · exact stampComponent_getField tag r a hr
        · exact ih rs' hrs a ha'

theorem pyTail_length_le (n : Nat) (xs : List α) : (pyTail n xs).length ≤ n := by
  simp only [pyTail, List.length_drop]
  omega

theorem pyTail_of_short (n : Nat) (xs : List α) (h : xs.length ≤ n) :
    pyTail n xs = xs := by
  have : xs.length - n = 0 := by omega
  simp [pyTail, this]

theorem update_activities_step_len_le (cache : Json) (r : FileRead)
    (h : jsonLen cache ≤ max_items) :
    jsonLen (update_activities_step cache r) ≤ max_items := by
  cases r with
  | missing => exact h
  | malformed => exact h
  | ok payload =>
    cases payload with
    | null => exact h
    | bool b => exact h
    | num n => exact h
    | str s => exact h
    | arr xs =>
      simpa [update_activities_step, jsonLen] using pyTail_length_le max_items xs
    | obj fs =>
      simp only [update_activities_step]
      cases hl : lookupField fs "history" with
      | none =>
        simp only [jsonLen, List.length_cons, List.length_nil]
        norm_num [max_items]
      | some hv =>
        cases hv with
        | null => exact h
        | bool b => exact h
        | num n => exact h
        | obj gs => exact h
        | arr ys =>
          simpa [pySliceTail, jsonLen] using pyTail_length_le max_items ys
        | str s =>
          simpa [pySliceTail, jsonLen, String.length] using
            pyTail_length_le max_items s.data

theorem insertByTime_perm (x : Json) (l : List Json) :
    List.Perm (insertByTime x l) (x :: l) := by
  induction l with
  | nil => rfl
  | cons y ys ih =>
    simp only [insertByTime]
    by_cases h : getTime y < getTime x
    · rw [if_pos h]
      exact (ih.cons y).trans (List.Perm.swap x y ys)
    · rw [if_neg h]

theorem mem_insertByTime {z x : Json} {l : List Json}
    (h : z ∈ insertByTime x l) : z = x ∨ z ∈ l := by
  have := (insertByTime_perm x l).mem_iff.mp h
  simpa using this

theorem insertByTime_pairwise (x : Json) (l : List Json)
    (h : l.Pairwise (fun a b => getTime a ≤ getTime b)) :
    (insertByTime x l).Pairwise (fun a b => getTime a ≤ getTime b) := by
  induction l with
  | nil => simp [insertByTime]
  | cons y ys ih =>
    rcases List.pairwise_cons.mp h with ⟨hy, hys⟩
    simp only [insertByTime]
    by_cases hc : getTime y < getTime x
    · rw [if_pos hc]
      refine List.pairwise_cons.mpr ⟨?_, ih hys⟩
      intro z hz
      rcases mem_insertByTime hz with rfl | hz'
      · exact le_of_lt hc
      · exact hy z hz'
    · rw [if_neg hc]
      refine List.pairwise_cons.mpr ⟨?_, h⟩
      intro z hz
      rcases List.mem_cons.mp hz with rfl | hz'
      · omega
      · exact le_trans (by omega) (hy z hz')

theorem insertByTime_filter (x : Json) (l : List Json) (t : Int) :
    (insertByTime x l).filter (fun r => decide (getTime r = t)) =
      if getTime x = t then
        x :: l.filter (fun r => decide (getTime r = t))
      else l.filter (fun r => decide (getTime r = t)) := by
  induction l with
  | nil => by_cases h : getTime x = t <;> simp [insertByTime, h]
  | cons y ys ih =>
    simp only [insertByTime]
    by_cases hc : getTime y < getTime x
    · rw [if_pos hc]
      by_cases hx : getTime x = t
      · have hy : ¬ (getTime y = t) := by omega
        simp [List.filter_cons, hy, hx, ih]
      · by_cases hy : getTime y = t <;>
          simp [List.filter_cons, hy, hx, ih]
    · rw [if_neg hc]
      by_cases hx : getTime x = t <;> by_cases hy : getTime y = t <;>
        simp [List.filter_cons, hx, hy]

theorem sortByTime_perm (l : List Json) : List.Perm (sortByTime l) l := by
  induction l with
  | nil => rfl
  | cons x xs ih => exact (insertByTime_perm x (sortByTime xs)).trans (ih.cons x)

theorem sortByTime_pairwise (l : List Json) :
    (sortByTime l).Pairwise (fun a b => getTime a ≤ getTime b) := by
  induction l with
  | nil => simp [sortByTime]
  | cons x xs ih => exact insertByTime_pairwise x _ ih

theorem sortByTime_filter (l : List Json) (t : Int) :
    (sortByTime l).filter (fun r => decide (getTime r = t)) =
      l.filter (fun r => decide (getTime r = t)) := by
  induction l with
  | nil => rfl
  | cons x xs ih =>
    rw [sortByTime, insertByTime_filter]
    by_cases hx : getTime x = t <;> simp [List.filter_cons, hx, ih]

theorem tail_run_aux (trace : List FileRead) :
    ∀ acc : List Json,
      (trace.foldl (fun last r => (tail_step last r).2) acc).length ≤
        acc.length + total_observed trace := by
  induction trace with
  | nil => intro acc; simp [total_observed]
  | cons r rest ih =>
    intro acc
    have h3 : (tail_step acc r).2.length ≤ acc.length + records_observed r := by
      cases r with
      | missing => simp [tail_step, records_observed]
      | malformed => simp [tail_step, records_observed]
      | ok payload =>
        cases payload <;> simp [tail_step, tail_delta, records_observed]
    have h2 := ih ((tail_step acc r).2)
    simp only [List.foldl_cons, total_observed, List.map_cons, List.sum_cons] at h2 ⊢
    omega


/-! Claim theorems. -/

/-- C1, counterexample: `update_activities` does not stamp the
"component" field.  Reading a well-formed array containing a record whose
producer wrote `component = "producer"` caches that record unchanged, so
not every cached record has `component` equal to the queried tag
("cognitive"). -/
theorem update_activities_no_stamp_cex :
    ¬ (∀ r ∈ jsonItems (update_activities_step initial_cache
          (.ok (.arr [producer_rec]))),
        r.getField "component" = some (.str "cognitive")) := by decide

/-- C1, amended: for every well-formed log file, `update_activities`
keeps the cached record list at length at most 100 (given the invariant
that the previous cache already satisfies the bound, as the initial empty
cache does), and it is `update_display` that stamps every record it
loads with the queried component tag, overwriting any pre-existing value
the producer wrote. -/
theorem collector_bound_and_display_stamp (cache : Json) (r : FileRead)
    (tag : String) (xs out : List Json)
    (hcache : jsonLen cache ≤ max_items)
    (hload : display_load_single tag (.arr xs) = some out) :
    jsonLen (update_activities_step cache r) ≤ max_items ∧
    ∀ a ∈ out, a.getField "component" = some (.str tag) := by
  refine ⟨update_activities_step_len_le cache r hcache, ?_⟩
  exact stampAll_getField tag xs out hload

/-- Witness for C1 at a concrete input: the stamped output overwrites the
value the producer wrote. -/
theorem collector_bound_and_display_stamp_witness :
    (jsonLen initial_cache ≤ max_items ∧
     display_load_single "cognitive" (.arr [producer_rec]) =
       some [Json.obj [("time", .num 5), ("component", .str "cognitive")]]) ∧
    (jsonLen (update_activities_step initial_cache
        (.ok (.arr [producer_rec]))) ≤ max_items ∧
     ∀ a ∈ [Json.obj [("time", .num 5), ("component", .str "cognitive")]],
       a.getField "component" = some (.str "cognitive")) :=
  ⟨⟨by decide, by decide⟩,
   collector_bound_and_display_stamp initial_cache (.ok (.arr [producer_rec]))
     "cognitive" [producer_rec] _ (by decide) (by decide)⟩

/-- C2, confirmed: the merge concatenates the per-component lists and
stable-sorts by `time` (missing `time` sorts as 0): the output is
non-decreasing in the sort key, records with equal key keep their
relative input order (the filter at every key value is unchanged), and
the output is a permutation of the concatenation.  The hypothesis
restricts to actual records, the domain on which `x.get("time", 0)` is
faithfully modelled. -/
theorem merge_sorted_stable (componentLists : List (List Json))
    (_h : ∀ r ∈ componentLists.flatten, goodRec r = true) :
    (merge componentLists).Pairwise (fun a b => getTime a ≤ getTime b) ∧
    (∀ t : Int,
      (merge componentLists).filter (fun r => decide (getTime r = t)) =
        componentLists.flatten.filter (fun r => decide (getTime r = t))) ∧
    List.Perm (merge componentLists) componentLists.flatten :=
  ⟨sortByTime_pairwise _, fun t => sortByTime_filter _ t, sortByTime_perm _⟩

/-- Witness for C2 on a concrete three-record, two-component input
containing a record with no "time" key. -/
theorem merge_sorted_stable_witness :
    (∀ r ∈ ([[recT2], [recT1, recNoTime]] : List (List Json)).flatten,
       goodRec r = true) ∧
    ((merge [[recT2], [recT1, recNoTime]]).Pairwise
        (fun a b => getTime a ≤ getTime b) ∧
     (∀ t : Int,
       (merge [[recT2], [recT1, recNoTime]]).filter
           (fun r => decide (getTime r = t)) =
         ([[recT2], [recT1, recNoTime]] : List (List Json)).flatten.filter
           (fun r => decide (getTime r = t))) ∧
     List.Perm (merge [[recT2], [recT1, recNoTime]])
       ([[recT2], [recT1, recNoTime]] : List (List Json)).flatten) :=
  ⟨by decide, merge_sorted_stable _ (by decide)⟩

/-- C3, counterexample: when the file is replaced with fewer records than
the cursor, the delta is NOT the entire new content.  With two records
already seen and the file replaced by a single new record, the slice
`activities[len(last_seen):]` is empty, so nothing is returned. -/
theorem tail_delta_shrink_cex :
    (tail_delta [recA, recB] [recC]).1 ≠ [recC] := by decide

/-- C3, amended: in tail mode, if the file grows by appending K records,
`delta` returns exactly those K records and the cursor advances by K;
but if the file is replaced with fewer records than the cursor, `delta`
returns NO records (the empty list) while the cursor resets to the new
length. -/
theorem tail_delta_append_and_shrink (last ks newer : List Json)
    (h : newer.length < last.length) :
    (tail_delta last (last ++ ks)).1 = ks ∧
    (tail_delta last (last ++ ks)).2.length = last.length + ks.length ∧
    (tail_delta last newer).1 = [] ∧
    (tail_delta last newer).2.length = newer.length := by
  refine ⟨?_, ?_, ?_, rfl⟩
  · simp [tail_delta, List.drop_left]
  · simp [tail_delta]
  · exact List.drop_eq_nil_of_le (by omega)

/-- Witness for C3: grow by one record, then shrink to one record. -/
theorem tail_delta_append_and_shrink_witness :
    (([recC] : List Json).length < ([recA, recB] : List Json).length) ∧
    ((tail_delta [recA, recB] ([recA, recB] ++ [recC])).1 = [recC] ∧
     (tail_delta [recA, recB] ([recA, recB] ++ [recC])).2.length =
       ([recA, recB] : List Json).length + ([recC] : List Json).length ∧
     (tail_delta [recA, recB] [recC]).1 = [] ∧
     (tail_delta [recA, recB] [recC]).2.length = ([recC] : List Json).length) :=
  ⟨by decide, tail_delta_append_and_shrink [recA, recB] [recC] [recC] (by decide)⟩

/-- C4, code bug, evaluated at the failing input: the first call returns
true, and a second call with an identical snapshot would return false as
the claim says; but when a record list changes while the metrics sample
is value-identical, `_screen_state_changed` still returns false, because
`last_screen_state["activities"]` is a reference to the live
`self.activities` dict (mutated in place, never rebound), so the
activities half of the comparison always compares the current dict with
itself.  The claim says any record difference yields true. -/
theorem screen_state_changed_misses_record_change :
    acts_one ≠ acts_empty ∧
    (screen_state_changed acts_empty stats_sample none).1 = true ∧
    (screen_state_changed acts_empty stats_sample
        (some (screen_state_changed acts_empty stats_sample none).2)).1 = false ∧
    (screen_state_changed acts_one stats_sample
        (some (screen_state_changed acts_empty stats_sample none).2)).1 = false :=
  ⟨by decide, rfl, by decide, by decide⟩

/-- C5, confirmed: a parse failure (and likewise a missing file) leaves
the previously cached value unchanged and raises nothing to the caller
(the exception is consumed at lines 104-105; the model is a total
function), and the cache a component starts from is the empty list, so a
first-ever read of a malformed file leaves the cache empty. -/
theorem malformed_read_keeps_cache (cache : Json) :
    update_activities_step cache .malformed = cache ∧
    update_activities_step cache .missing = cache ∧
    initial_cache = Json.arr [] ∧
    update_activities_step initial_cache .malformed = Json.arr [] :=
  ⟨rfl, rfl, rfl, rfl⟩

/-- C6, counterexample: a single record that itself contains a "history"
key is not normalized like the one-element array carrying it: the bare
object is interpreted as the history-wrapped shape instead. -/
theorem normalize_bare_history_cex :
    update_activities_step initial_cache (.ok bare_history_rec) ≠
      update_activities_step initial_cache (.ok (.arr [bare_history_rec])) := by
  decide

/-- C6, amended: the array shape and the history-wrapped shape of the
same record list normalize identically, and a single record that does
NOT itself contain a "history" key normalizes identically as a bare
object and as a one-element array.  (A bare object with a "history" key
is instead read as the history-wrapped shape.) -/
theorem normalize_shapes_agree (cache cache' : Json) (rs : List Json)
    (fs : List (String × Json)) (hno : lookupField fs "history" = none) :
    update_activities_step cache (.ok (.arr rs)) =
      update_activities_step cache (.ok (.obj [("history", .arr rs)])) ∧
    update_activities_step cache' (.ok (.obj fs)) =
      update_activities_step cache' (.ok (.arr [.obj fs])) := by
  constructor
  · simp [update_activities_step, lookupField, pySliceTail]
  · have h1 : pyTail max_items [Json.obj fs] = [Json.obj fs] :=
      pyTail_of_short _ _ (by norm_num [max_items])
    simp [update_activities_step, hno, h1]

/-- Witness for C6 on a record without a "history" key. -/
theorem normalize_shapes_agree_witness :
    (lookupField [("time", Json.num 1), ("description", Json.str "a")]
        "history" = none) ∧
    (update_activities_step initial_cache (.ok (.arr [recA])) =
       update_activities_step initial_cache
         (.ok (.obj [("history", .arr [recA])])) ∧
     update_activities_step initial_cache
         (.ok (.obj [("time", Json.num 1), ("description", Json.str "a")])) =
       update_activities_step initial_cache
         (.ok (.arr [.obj [("time", Json.num 1),
           ("description", Json.str "a")]]))) :=
  ⟨by decide, normalize_shapes_agree initial_cache initial_cache [recA]
    [("time", Json.num 1), ("description", Json.str "a")] (by decide)⟩

/-- C7, counterexample: the cursor does decrease when the file shrinks.
After observing a two-record array the cursor is 2; a poll that reads a
one-record array moves it to 1. -/
theorem cursor_decreases_cex :
    ((tail_step (tail_step [] (.ok (.arr [recA, recB]))).2
        (.ok (.arr [recC]))).2).length <
      ((tail_step [] (.ok (.arr [recA, recB]))).2).length := by decide

/-- C7, amended: across successive poll cycles the cursor (the length of
the stored `last_seen` list) never decreases as long as each read
extends the previously read array by appending — after such a read it
equals the old cursor plus the number of appended records — and over any
sequence of polls it remains at most the total number of records ever
observed for that component.  (When the file is replaced with a shorter
array, the cursor resets to the new length, which is a decrease.) -/
theorem cursor_append_monotone_and_bounded (last ks : List Json)
    (trace : List FileRead) :
    last.length ≤ (tail_step last (.ok (.arr (last ++ ks)))).2.length ∧
    (tail_step last (.ok (.arr (last ++ ks)))).2.length =
      last.length + ks.length ∧
    (tail_run trace).length ≤ total_observed trace := by
  refine ⟨?_, ?_, ?_⟩
  · simp [tail_step, tail_delta]
  · simp [tail_step, tail_delta]
  · simpa using tail_run_aux trace []

/-- C8, confirmed: store initialisation is idempotent, never overwrites a
pre-existing file (so in particular never a non-empty one), and creates
an absent component file with content `[]`.  Directory creation
(`mkdir(..., exist_ok=True)`) carries no content and is idempotent by
contract, so only file contents are modelled. -/
theorem init_store_idempotent_no_overwrite (fs : String → Option String)
    (c c' : String) (s : String)
    (h1 : fs c = some s) (h2 : fs c' = none) (h3 : c' ∈ component_names) :
    (∀ d, init_store (init_store fs) d = init_store fs d) ∧
    init_store fs c = some s ∧
    init_store fs c' = some "[]" := by
  refine ⟨?_, ?_, ?_⟩
  · intro d
    by_cases hd : d ∈ component_names
    · simp only [init_store, if_pos hd]
      cases hfd : fs d <;> simp
    · simp [init_store, hd]
  · by_cases hc : c ∈ component_names
    · simp [init_store, hc, h1]
    · simp [init_store, hc, h1]
  · simp [init_store, h3, h2]

/-- Witness for C8: one existing file ("ml", non-empty content) and one
absent file ("cognitive"). -/
theorem init_store_idempotent_no_overwrite_witness :
    (fs_example "ml" = some "[1, 2]" ∧ fs_example "cognitive" = none ∧
     "cognitive" ∈ component_names) ∧
    ((∀ d, init_store (init_store fs_example) d = init_store fs_example d) ∧
     init_store fs_example "ml" = some "[1, 2]" ∧
     init_store fs_example "cognitive" = some "[]") :=
  ⟨⟨by decide, by decide, by decide⟩,
   init_store_idempotent_no_overwrite fs_example "ml" "cognitive" "[1, 2]"
     (by decide) (by decide) (by decide)⟩

/-- C9, code bug, evaluated at the failing situation: in any scheduler
cycle that reaches `update_display` (empty record list, heartbeat
window not exceeded within the iteration itself — the display runs at
most milliseconds, certainly at most 30 s, after line 257 set
`self.last_update` to the current time), the heartbeat flag is false and
no record rows are rendered.  Hence the "System active - no events" line
the claim (and the comment at line 196) promises after 30 idle seconds
is never printed in dashboard mode. -/
theorem dashboard_heartbeat_never_fires (lastUpdate tNow tDisp : Int)
    (out : DisplayOut)
    (hgap : tDisp - tNow ≤ heartbeat_window_ms)
    (hrun : run_cycle_display lastUpdate tNow tDisp [] = some out) :
    out.heartbeat = false ∧ out.rows = [] := by
  unfold run_cycle_display at hrun
  by_cases hthr : tNow - lastUpdate ≥ update_interval_ms
  · rw [if_pos hthr] at hrun
    have hout : out = update_display_events [] tDisp tNow :=
      (Option.some.inj hrun).symm
    subst hout
    unfold update_display_events
    have hno : ¬ (tDisp - tNow > heartbeat_window_ms) := by omega
    simp [hno]
  · rw [if_neg hthr] at hrun
    cases hrun

/-- Witness for C9: a cycle at t = 100 s (milliseconds 100000) with the
display reading the clock at the same instant. -/
theorem dashboard_heartbeat_never_fires_witness :
    ((100000 : Int) - 100000 ≤ heartbeat_window_ms) ∧
    run_cycle_display 0 100000 100000 [] =
      some { heartbeat := false, rows := [], last_update := 100000 } ∧
    (({ heartbeat := false, rows := [], last_update := 100000 } :
        DisplayOut).heartbeat = false ∧
     ({ heartbeat := false, rows := [], last_update := 100000 } :
        DisplayOut).rows = []) :=
  ⟨by decide, by decide,
   dashboard_heartbeat_never_fires 0 100000 100000 _ (by decide) (by decide)⟩

/-- C10, confirmed: in tail mode only an array payload prints records and
replaces `last_seen`; an object payload (history-wrapped or not) or any
other non-array value prints nothing and leaves the cursor unchanged, as
do a missing file and a parse failure. -/
theorem tail_step_non_array_skipped (last : List Json) (p : Json)
    (xs : List Json) (h : p.isArr = false) :
    tail_step last (.ok p) = ([], last) ∧
    tail_step last (.ok (.arr xs)) = (xs.drop last.length, xs) ∧
    tail_step last .missing = ([], last) ∧
    tail_step last .malformed = ([], last) := by
  refine ⟨?_, rfl, rfl, rfl⟩
  cases p <;> first | rfl | (exfalso; simp [Json.isArr] at h)

/-- Witness for C10: a history-wrapped object payload is skipped while an
array payload advances the cursor. -/
theorem tail_step_non_array_skipped_witness :
    (bare_history_rec.isArr = false) ∧
    (tail_step [recA] (.ok bare_history_rec) = ([], [recA]) ∧
     tail_step [recA] (.ok (.arr [recA, recB])) = ([recB], [recA, recB]) ∧
     tail_step [recA] .missing = ([], [recA]) ∧
     tail_step [recA] .malformed = ([], [recA])) :=
  ⟨by decide,
   tail_step_non_array_skipped [recA] bare_history_rec [recA, recB] (by decide)⟩
